import Mathlib

/-!
# Verification of the AI News Agent workflow core

This file gives a shallow embedding, in Lean 4, of the workflow core of the
AI News Agent repository: the data model (`src/models/news_article.py`,
`src/models/news_summary.py`), the Google News fetcher
(`src/services/google_news_fetcher.py`), the Strands summarizer
(`src/services/strands_ai_summarizer.py`) and the Lambda orchestrator
(`src/aws_lambda/handler.py`), together with theorems settling the stated
properties of that code.

Modelling conventions:
* Python strings are Lean `String`s; Python string primitives (`lower`,
  slicing, `in`, `strip`, `split`) are embedded as explicit `py*` helpers
  over the underlying character list.
* Python floats are embedded as rationals (`ℚ`).
* `datetime` values are embedded as abstract integer timestamps (`Int`);
  only their ordering is ever used by the embedded code.  `strftime`
  rendering is abstracted to `toString` of the timestamp, since no result
  ever depends on the rendered form of a date.
* Calls into external collaborators (the GNews client, the Strands agent,
  the SNS publisher) are oracles: each call site receives the outcome of
  that call (a value, a `False`-ish result, or a raised exception) as a
  parameter.  Raisable Python code is embedded in `Except`.
* `json.dumps` (Python stdlib) raises `TypeError` for objects that are not
  `dict`/`list`/`str`/number/bool/`None`.  `NewsArticle`, `NewsSummary` and
  `datetime` instances are plain objects with no JSON encoder registered in
  this repository, so serializing a structure that contains them raises.
  This behaviour is modelled by `workflow_state_serializable`.
-/

/-! ## Python string primitives -/

/-- `len(s)` for a Python string. -/
def pyLen (s : String) : Nat := s.data.length

/-- `s[:n]` for a Python string. -/
def pyTake (s : String) (n : Nat) : String := ⟨s.data.take n⟩

/-- `s[n:]` for a Python string. -/
def pyDrop (s : String) (n : Nat) : String := ⟨s.data.drop n⟩

/-- `s.lower()` for a Python string. -/
def pyLower (s : String) : String := ⟨s.data.map Char.toLower⟩

/-- Whether `needle` is a prefix of `hay` (character lists). -/
def charsHaveStart : List Char → List Char → Bool
  | _, [] => true
  | [], _ :: _ => false
  | h :: hs, n :: ns => h = n && charsHaveStart hs ns

/-- Whether `needle` occurs contiguously inside `hay` (character lists). -/
def charsContain : List Char → List Char → Bool
  | [], needle => needle.isEmpty
  | h :: t, needle => charsHaveStart (h :: t) needle || charsContain t needle

/-- `needle in hay` for Python strings (substring containment). -/
def pyContains (hay needle : String) : Bool := charsContain hay.data needle.data

/-- `s.strip()` for a Python string: whitespace removed from both ends. -/
def pyStrip (s : String) : String :=
  ⟨((s.data.dropWhile Char.isWhitespace).reverse.dropWhile Char.isWhitespace).reverse⟩

/-- `s.split(c)` for a Python string and a one-character separator. -/
def pySplitChar (s : String) (c : Char) : List String :=
  (s.data.splitOn c).map (fun l => ⟨l⟩)

/-- `s.startswith(c)` for a one-character pattern. -/
def pyStartsWithChar (s : String) (c : Char) : Bool := s.data.head? = some c

/-- `s.split(c, 1)[1]`: everything after the first occurrence of `c`
(the callers below only use it when `c` occurs in `s`). -/
def pyAfterFirst (s : String) (c : Char) : String :=
  ⟨(s.data.dropWhile (fun d => d ≠ c)).drop 1⟩

/-! ## Data model (`src/models`)

`NewsArticle.__post_init__` generates a UUID when `id is None`; the UUID
source is abstracted by keeping the field optional. -/

/-- `NewsArticle` (`src/models/news_article.py`). -/
structure NewsArticle where
  title : String
  content : String
  url : String
  publishedAt : Int
  source : String
  id : Option String
  relevanceScore : Option ℚ
deriving DecidableEq, Repr

/-- `ArticleSource` (`src/models/news_summary.py`). -/
structure ArticleSource where
  title : String
  url : String
  source : String
  publishedAt : Int
deriving DecidableEq, Repr

/-- `NewsSummary` (`src/models/news_summary.py`). -/
structure NewsSummary where
  summary : String
  keyPoints : List String
  sources : List ArticleSource
  generatedAt : Int
  articleCount : Nat
  id : Option String
deriving DecidableEq, Repr

/-! ## Relevance scoring (`NewsArticle.calculate_relevance_score`) -/

/-- The default keyword vocabulary of `calculate_relevance_score`. -/
def default_keywords : List String :=
  ["artificial intelligence", "ai", "machine learning", "ml",
   "generative ai", "chatgpt", "gpt", "llm", "large language model",
   "neural network", "deep learning", "transformer", "openai",
   "anthropic", "claude", "gemini", "bard", "copilot"]

/-- `NewsArticle.calculate_relevance_score` (`news_article.py` lines 63-97).
Returns the computed score together with the article updated with the
cached `relevance_score` (the method's side effect). -/
def NewsArticle.calculate_relevance_score (a : NewsArticle)
    (keywords : Option (List String)) : ℚ × NewsArticle :=
  let kws := keywords.getD default_keywords
  let text := pyLower (a.title ++ " " ++ a.content)
  let match_count := (kws.filter (fun k => pyContains text (pyLower k))).length
  let total_keywords := kws.length
  let base_score : ℚ := if 0 < total_keywords then (match_count : ℚ) / total_keywords else 0
  let title_matches :=
    (kws.filter (fun k => pyContains (pyLower a.title) (pyLower k))).length
  let title_boost : ℚ :=
    if 0 < total_keywords then ((title_matches : ℚ) / total_keywords) * (3/10) else 0
  let final_score := min (base_score + title_boost) 1
  (final_score, { a with relevanceScore := some final_score })

/-- Count of vocabulary terms present case-insensitively in `text`
(the specification's *matches* / *titleMatches* counters). -/
def count_matching_terms (terms : List String) (text : String) : Nat :=
  (terms.filter (fun t => pyContains (pyLower text) (pyLower t))).length

/-! ## Duplicate detection (`NewsArticle.is_duplicate`) -/

/-- A character matched by Python's `\w` (ASCII range). -/
def isWordChar (c : Char) : Bool := c.isAlphanum || c = '_'

/-- Maximal runs of word characters, i.e. `re.findall(r"\w+", s)`. -/
def wordRuns : List Char → List Char → List (List Char)
  | [], [] => []
  | [], cur => [cur.reverse]
  | c :: rest, cur =>
    if isWordChar c then wordRuns rest (c :: cur)
    else if cur.isEmpty then wordRuns rest []
    else cur.reverse :: wordRuns rest []

/-- `set(re.findall(r"\w+", text.lower()))`. -/
def wordSet (s : String) : Finset String :=
  ((wordRuns (pyLower s).data []).map (fun l => (⟨l⟩ : String))).toFinset

/-- `NewsArticle._calculate_similarity` (`news_article.py` lines 121-135). -/
def calculate_similarity (text1 text2 : String) : ℚ :=
  let words1 := wordSet text1
  let words2 := wordSet text2
  if words1 = ∅ ∧ words2 = ∅ then 1
  else if words1 = ∅ ∨ words2 = ∅ then 0
  else
    let intersection := words1 ∩ words2
    let union := words1 ∪ words2
    if union ≠ ∅ then (intersection.card : ℚ) / union.card else 0

/-- `NewsArticle.is_duplicate` (`news_article.py` lines 105-119). -/
def is_duplicate (a other : NewsArticle) : Bool :=
  if a.url = other.url then true
  else if calculate_similarity a.title other.title > 8/10 then true
  else false

/-! ## Deduplication (`GoogleNewsFetcher._remove_duplicates`) -/

/-- The loop body of `_remove_duplicates` (`google_news_fetcher.py` lines
312-341): iterate the input, skip an article whose URL was already seen or
that `is_duplicate` of an already accepted article, otherwise accept it and
record its URL. -/
def remove_duplicates_loop :
    List NewsArticle → List NewsArticle → List String → List NewsArticle
  | [], unique_articles, _ => unique_articles
  | article :: rest, unique_articles, seen_urls =>
    if article.url ∈ seen_urls then
      remove_duplicates_loop rest unique_articles seen_urls
    else if unique_articles.any (fun existing => is_duplicate article existing) then
      remove_duplicates_loop rest unique_articles seen_urls
    else
      remove_duplicates_loop rest (unique_articles ++ [article])
        (seen_urls ++ [article.url])

/-- `GoogleNewsFetcher._remove_duplicates`. -/
def remove_duplicates (articles : List NewsArticle) : List NewsArticle :=
  remove_duplicates_loop articles [] []

/-! ## Summary formatting (`src/models/news_summary.py`) -/

/-- Rendering of a timestamp; abstracts `strftime` (no embedded result ever
depends on the rendered form of a date). -/
def fmtDate (t : Int) : String := toString t

/-- `NewsSummary.format_for_plain_text` (`news_summary.py` lines 59-85). -/
def format_for_plain_text (s : NewsSummary) : String :=
  let header :=
    "AI News Summary - " ++ fmtDate s.generatedAt ++ "\n" ++
    String.mk (List.replicate 50 '=') ++ "\n\n" ++
    "Generated at: " ++ fmtDate s.generatedAt ++ "\n" ++
    "Articles analyzed: " ++ toString s.articleCount ++ "\n\n" ++
    "SUMMARY\n" ++ String.mk (List.replicate 20 '-') ++ "\n" ++
    s.summary ++ "\n\n"
  let keyPointsBlock :=
    if s.keyPoints.isEmpty then ""
    else
      "KEY POINTS\n" ++ String.mk (List.replicate 20 '-') ++ "\n" ++
      String.join ((List.range s.keyPoints.length).zip s.keyPoints |>.map
        (fun p => toString (p.1 + 1) ++ ". " ++ p.2 ++ "\n")) ++ "\n"
  let sourcesBlock :=
    if s.sources.isEmpty then ""
    else
      "SOURCES\n" ++ String.mk (List.replicate 20 '-') ++ "\n" ++
      String.join ((List.range s.sources.length).zip s.sources |>.map
        (fun p => toString (p.1 + 1) ++ ". " ++ p.2.title ++ " - " ++ p.2.source ++
          " (" ++ fmtDate p.2.publishedAt ++ ")\n   " ++ p.2.url ++ "\n\n"))
  header ++ keyPointsBlock ++ sourcesBlock

/-- `LambdaHandler._create_simplified_summary` (`handler.py` lines 575-601):
truncate the narrative to 1000 characters (appending `"..."` when truncated),
keep at most 5 key points and 10 sources, preserve the identifier. -/
def create_simplified_summary (summary : NewsSummary) : NewsSummary :=
  let simplified_text :=
    if pyLen summary.summary > 1000 then pyTake summary.summary 1000 ++ "..."
    else summary.summary
  let limited_key_points := summary.keyPoints.take 5
  let limited_sources := summary.sources.take 10
  { summary := simplified_text
    keyPoints := limited_key_points
    sources := limited_sources
    generatedAt := summary.generatedAt
    articleCount := summary.articleCount
    id := summary.id }

/-! ## Google News fetcher (`src/services/google_news_fetcher.py`)

The GNews client (`self.gnews.get_news`) is an external collaborator; each
call site receives the outcome of that call as an oracle value.
`_create_news_article` downloads article content and parses dates through
the collaborator, so it is abstracted as a parameter
`create : Raw → Option NewsArticle` (it catches its own exceptions and
returns `None` on failure, `google_news_fetcher.py` lines 220-258). -/

/-- Outcome of one call to an external collaborator that either raises or
returns a value. -/
inductive SearchOutcome (α : Type) where
  | raises
  | returns (items : α)

/-- Per-instance fetcher state: `self._processed_urls`, created once in
`GoogleNewsFetcher.__init__` (lines 51-52) and never cleared. -/
structure FetcherState where
  processedUrls : List String
deriving DecidableEq, Repr

/-- `GoogleNewsFetcher._fetch_with_retry` (lines 140-173), with `att i` the
outcome of the `i`-th `gnews.get_news` call and the second argument the
number of remaining attempts (3 initially).  A raise on the last attempt
propagates; an empty result is retried and returned as `[]` only after the
attempt budget is spent. -/
def fetch_with_retry (att : Nat → SearchOutcome (List α)) :
    Nat → Nat → Except Unit (List α)
  | _, 0 => .ok []
  | i, n + 1 =>
    match att i with
    | .raises => if n = 0 then .error () else fetch_with_retry att (i + 1) n
    | .returns items =>
      if items.isEmpty then fetch_with_retry att (i + 1) n else .ok items

/-- `GoogleNewsFetcher._convert_to_news_articles` (lines 175-218): per raw
item, build the article (skip on failure), skip items at or before the
cutoff time, skip items whose URL is in `self._processed_urls`, otherwise
add the URL to the set and keep the article.  Returns the kept articles and
the updated instance state. -/
def convert_to_news_articles (create : Raw → Option NewsArticle) (cutoff : Int) :
    List Raw → FetcherState → List NewsArticle × FetcherState
  | [], st => ([], st)
  | raw :: rest, st =>
    match create raw with
    | none => convert_to_news_articles create cutoff rest st
    | some article =>
      if article.publishedAt ≤ cutoff then
        convert_to_news_articles create cutoff rest st
      else if article.url ∈ st.processedUrls then
        convert_to_news_articles create cutoff rest st
      else
        let res := convert_to_news_articles create cutoff rest
          ⟨st.processedUrls ++ [article.url]⟩
        (article :: res.1, res.2)

/-- `GoogleNewsFetcher.fetch_news` (lines 56-90): retry the search, return
`[]` when the search result is empty, otherwise convert the raw items,
threading the per-instance `_processed_urls` state. -/
def fetch_news (att : Nat → SearchOutcome (List Raw))
    (create : Raw → Option NewsArticle) (cutoff : Int) (st : FetcherState) :
    Except Unit (List NewsArticle) × FetcherState :=
  match fetch_with_retry att 0 3 with
  | .error e => (.error e, st)
  | .ok raw_articles =>
    if raw_articles.isEmpty then (.ok [], st)
    else
      let res := convert_to_news_articles create cutoff raw_articles st
      (.ok res.1, res.2)

/-! ## Strands AI summarizer (`src/services/strands_ai_summarizer.py`)

The Strands agent is an external collaborator.  `_generate_summary_text`
and the agent call inside `extract_key_points` go through
`_execute_with_retry`, which either returns the response text or raises
after exhausting its attempts; each is modelled as an
`Except Unit String` oracle value. -/

/-- Outcomes of the two agent invocations made by `generate_summary`. -/
structure AgentOracle where
  summaryTextResult : Except Unit String
  keyPointsResult : Except Unit String

/-- `StrandsAISummarizer._parse_key_points_response` (lines 240-258): split
the response into lines, keep lines starting with a bullet marker (`•`,
`-`, `*`) or a digit followed by a dot, strip them, cap at 8 entries. -/
def parse_key_points_response (response_content : String) : List String :=
  let lines := (pySplitChar (pyStrip response_content) '\n').map pyStrip
  let step := fun (key_points : List String) (line : String) =>
    if pyStartsWithChar line '•' || pyStartsWithChar line '-' ||
        pyStartsWithChar line '*' then
      let key_point := pyStrip (pyDrop line 1)
      if key_point ≠ "" then key_points ++ [key_point] else key_points
    else if line ≠ "" ∧ (line.data.head?.elim false Char.isDigit) ∧
        line.data.contains '.' then
      let key_point := pyStrip (pyAfterFirst line '.')
      if key_point ≠ "" then key_points ++ [key_point] else key_points
    else key_points
  (lines.foldl step []).take 8

/-- `StrandsAISummarizer._create_article_sources` (lines 275-288). -/
def create_article_sources (articles : List NewsArticle) : List ArticleSource :=
  articles.map (fun a => ⟨a.title, a.url, a.source, a.publishedAt⟩)

/-- `StrandsAISummarizer._generate_fallback_key_points` (lines 344-352). -/
def generate_fallback_key_points (articles : List NewsArticle) : List String :=
  (articles.take 5).map (fun a => a.title ++ " - " ++ a.source)

/-- `StrandsAISummarizer._fallback_summary_generation` (lines 320-342):
built purely from the articles already in memory — string slicing,
concatenation and `ArticleSource` construction only, so it cannot raise. -/
def fallback_summary_generation (articles : List NewsArticle) (now : Int) :
    NewsSummary :=
  let firstFive := articles.take 5
  let summary_parts := firstFive.map (fun a => a.title ++ " (" ++ a.source ++ ")")
  let key_points := firstFive.map
    (fun a => pyTake a.title 100 ++ "... (" ++ a.source ++ ")")
  let fallback_summary :=
    "Recent Generative AI developments include: " ++
    String.intercalate "; " summary_parts
  { summary := fallback_summary
    keyPoints := key_points
    sources := create_article_sources articles
    generatedAt := now
    articleCount := articles.length
    id := none }

/-- `StrandsAISummarizer.extract_key_points` (lines 171-212): returns `[]`
on an empty list, raises when the agent is not initialized, and otherwise
catches every exception of the extraction and answers with the fallback key
points. -/
def extract_key_points (agentInitialized : Bool) (ag : AgentOracle)
    (articles : List NewsArticle) : Except Unit (List String) :=
  if articles.isEmpty then .ok []
  else if agentInitialized = false then .error ()
  else
    match ag.keyPointsResult with
    | .ok response => .ok (parse_key_points_response response)
    | .error _ => .ok (generate_fallback_key_points articles)

/-- `StrandsAISummarizer.generate_summary` (lines 68-117): raises
`ValueError` on an empty article list and when the agent is not
initialized; otherwise any exception of the primary path (summary text
generation, key-point extraction, source construction) is caught and
answered with `_fallback_summary_generation`. -/
def generate_summary (agentInitialized : Bool) (ag : AgentOracle)
    (articles : List NewsArticle) (now : Int) : Except Unit NewsSummary :=
  if articles.isEmpty then .error ()
  else if agentInitialized = false then .error ()
  else
    match ag.summaryTextResult with
    | .error _ => .ok (fallback_summary_generation articles now)
    | .ok content =>
      match extract_key_points agentInitialized ag articles with
      | .error _ => .ok (fallback_summary_generation articles now)
      | .ok key_points =>
        .ok { summary := pyStrip content
              keyPoints := key_points
              sources := create_article_sources articles
              generatedAt := now
              articleCount := articles.length
              id := none }

/-! ## Lambda orchestrator (`src/aws_lambda/handler.py`)

The handler's collaborators (`news_fetcher.fetch_news` /
`filter_articles`, `ai_summarizer.generate_summary`,
`sns_publisher.publish_summary` / `send_no_news_notification`) are
oracles.  The workflow state is threaded explicitly, and the handler also
returns the trace of successive workflow-state snapshots (one per mutation
in the source) plus call counts, so that invariants about the state's
evolution and the number of collaborator calls can be stated. -/

/-- `ErrorType` (`handler.py` lines 24-31). -/
inductive ErrorType where
  | newsFetchError
  | summarizationError
  | publishingError
  | configurationError
  | timeoutError
  | unknownError
deriving DecidableEq, Repr

/-- One entry of `workflow_state['errors']` (`handler.py` lines 623-628 and
684-689); the timestamp is abstracted away. -/
structure ErrorEntry where
  type : ErrorType
  message : String
  recoverable : Bool
deriving DecidableEq, Repr

/-- `workflow_state` (`handler.py` lines 135-142). -/
structure WorkflowState where
  articlesFetched : Bool
  summaryGenerated : Bool
  summaryPublished : Bool
  articles : List NewsArticle
  summary : Option NewsSummary
  errors : List ErrorEntry
deriving DecidableEq, Repr

/-- The initial `workflow_state` of one invocation. -/
def ws_initial : WorkflowState :=
  { articlesFetched := false
    summaryGenerated := false
    summaryPublished := false
    articles := []
    summary := none
    errors := [] }

/-- The `WorkflowError` exception (`handler.py` lines 34-42). -/
structure WorkflowError where
  message : String
  errorType : ErrorType
  recoverable : Bool
deriving DecidableEq, Repr

/-- The structured response dictionary: status code plus the body fields the
claims inspect (message, embedded workflow state, error type).  Timestamps,
execution time and the config echo are abstracted away. -/
structure Response where
  statusCode : Nat
  message : String
  workflowState : Option WorkflowState
  errorType : Option ErrorType
deriving DecidableEq, Repr

/-- Whether `json.dumps` succeeds on a response body embedding this
workflow state.  `errors` entries are dictionaries of strings and booleans
(serializable), but `articles` holds `NewsArticle` dataclass instances and
`summary` a `NewsSummary` dataclass instance, for which `json.dumps` raises
`TypeError` (they are not dict/list/str/number/bool/None and no custom
encoder is installed anywhere in the repository). -/
def workflow_state_serializable (ws : WorkflowState) : Bool :=
  ws.articles.isEmpty && ws.summary.isNone

/-- `LambdaHandler._create_success_response` (lines 805-838) as invoked by
`handler` (always with a workflow state): `json.dumps` of the body either
yields the 200 response or raises `TypeError`. -/
def create_success_response (message : String) (ws : WorkflowState) :
    Except Unit Response :=
  if workflow_state_serializable ws then
    .ok { statusCode := 200, message := message, workflowState := some ws,
          errorType := none }
  else .error ()

/-- `LambdaHandler._create_partial_success_response` (lines 699-717). -/
def create_partial_success_response (message : String) (ws : WorkflowState) :
    Except Unit Response :=
  if workflow_state_serializable ws then
    .ok { statusCode := 206, message := message, workflowState := some ws,
          errorType := none }
  else .error ()

/-- `LambdaHandler._create_error_response` (lines 840-865) as invoked by the
error handlers (always with an error type and a workflow state). -/
def create_error_response (message : String) (errorType : ErrorType)
    (ws : WorkflowState) : Except Unit Response :=
  if workflow_state_serializable ws then
    .ok { statusCode := 500, message := message, workflowState := some ws,
          errorType := some errorType }
  else .error ()

/-- Outcome of one call to a publisher method returning a boolean
(`publish_summary`, `send_no_news_notification`). -/
inductive PubOutcome where
  | returnsTrue
  | returnsFalse
  | raises
deriving DecidableEq, Repr

/-- Outcome of one handler-level fetch attempt: `news_fetcher.fetch_news`
either raises or returns raw articles; when they are non-empty,
`news_fetcher.filter_articles` either raises or returns the filtered
list. -/
inductive HandlerFetchAttempt where
  | fetchRaises
  | fetchReturns (raw : List NewsArticle)
      (filterResult : Except Unit (List NewsArticle))

/-- The retry loop of `LambdaHandler._fetch_news_articles_with_recovery`
(lines 220-264): `att i` is the outcome of the `i`-th attempt, the last
argument the remaining attempt budget (3 initially).  Returns the result
(`WorkflowError` with type `NEWS_FETCH_ERROR`, non-recoverable, when the
final attempt fails) together with the number of `fetch_news` calls made.
An empty `fetch_news` result returns `[]` at once; a non-empty result is
filtered and capped at `maxArticles`. -/
def fetch_recovery_loop (att : Nat → HandlerFetchAttempt) (maxArticles : Nat) :
    Nat → Nat → Except WorkflowError (List NewsArticle) × Nat
  | _, 0 => (.ok [], 0)
  | i, n + 1 =>
    match att i with
    | .fetchRaises =>
      if n = 0 then
        (.error { message := "News fetching failed after 3 attempts"
                  errorType := .newsFetchError, recoverable := false }, 1)
      else
        let r := fetch_recovery_loop att maxArticles (i + 1) n
        (r.1, r.2 + 1)
    | .fetchReturns raw filterResult =>
      if raw.isEmpty then (.ok [], 1)
      else
        match filterResult with
        | .error _ =>
          if n = 0 then
            (.error { message := "News fetching failed after 3 attempts"
                      errorType := .newsFetchError, recoverable := false }, 1)
          else
            let r := fetch_recovery_loop att maxArticles (i + 1) n
            (r.1, r.2 + 1)
        | .ok filtered_articles =>
          (.ok (if filtered_articles.length > maxArticles then
                  filtered_articles.take maxArticles
                else filtered_articles), 1)

/-- `LambdaHandler._fetch_news_articles_with_recovery` with its budget of
`max_retries = 3`. -/
def fetch_news_articles_with_recovery (att : Nat → HandlerFetchAttempt)
    (maxArticles : Nat) : Except WorkflowError (List NewsArticle) × Nat :=
  fetch_recovery_loop att maxArticles 0 3

/-- The notification loop of
`LambdaHandler._handle_no_news_scenario_with_recovery` (lines 342-363):
up to 2 attempts, stopping at the first `send_no_news_notification` call
that returns `True`; a `False` return and a raised exception both lead to
the next attempt.  Returns whether a call succeeded and how many calls were
made; the surrounding method catches everything, so it never raises. -/
def send_no_news_loop (att : Nat → PubOutcome) : Nat → Nat → Bool × Nat
  | _, 0 => (false, 0)
  | i, n + 1 =>
    match att i with
    | .returnsTrue => (true, 1)
    | _ =>
      let r := send_no_news_loop att (i + 1) n
      (r.1, r.2 + 1)

/-- `LambdaHandler._handle_no_news_scenario_with_recovery` with its budget
of `max_retries = 2`. -/
def handle_no_news_scenario_with_recovery (att : Nat → PubOutcome) :
    Bool × Nat :=
  send_no_news_loop att 0 2

/-- `LambdaHandler._publish_summary_with_recovery` (lines 306-328): a
single `publish_summary` call; a raised exception is caught and reported as
`False`. -/
def publish_summary_with_recovery (outcome : PubOutcome) : Bool :=
  match outcome with
  | .returnsTrue => true
  | .returnsFalse => false
  | .raises => false

/-- `LambdaHandler._attempt_fallback_publishing` (lines 486-530): publish a
simplified summary, then a minimal plain-text summary; each fallback's
exceptions are caught, the first `True` wins, otherwise `False`. -/
def attempt_fallback_publishing (pub1 pub2 : PubOutcome)
    (summary : NewsSummary) : Bool :=
  let _simplified_summary := create_simplified_summary summary
  match pub1 with
  | .returnsTrue => true
  | _ =>
    let plain_text := format_for_plain_text summary
    let _minimal_summary : NewsSummary :=
      { summary := if pyLen plain_text > 500 then pyTake plain_text 500 ++ "..."
                   else plain_text
        keyPoints := summary.keyPoints.take 3
        sources := summary.sources.take 5
        generatedAt := summary.generatedAt
        articleCount := summary.articleCount
        id := none }
    match pub2 with
    | .returnsTrue => true
    | _ => false

/-- `LambdaHandler._generate_fallback_summary` (lines 532-573): built
purely from the articles already in memory, so it cannot raise. -/
def generate_fallback_summary (articles : List NewsArticle) (now : Int) :
    NewsSummary :=
  let firstTen := articles.take 10
  let summary_parts := firstTen.map (fun a => a.title ++ " (" ++ a.source ++ ")")
  let key_points := firstTen.map
    (fun a => pyTake a.title 100 ++ (if pyLen a.title > 100 then "..." else ""))
  let sources := firstTen.map
    (fun a => (⟨a.title, a.url, a.source, a.publishedAt⟩ : ArticleSource))
  let fallback_summary_text :=
    "Recent Generative AI developments from " ++ toString articles.length ++
    " sources include: " ++ String.intercalate "; " (summary_parts.take 5) ++
    (if articles.length > 5 then
      " and " ++ toString (articles.length - 5) ++ " more articles."
     else "")
  { summary := fallback_summary_text
    keyPoints := key_points.take 8
    sources := sources
    generatedAt := now
    articleCount := articles.length
    id := none }

/-- `LambdaHandler._generate_summary_with_recovery` (lines 266-304): the
primary `ai_summarizer.generate_summary` call is an oracle; on a raise, the
handler falls back to `_generate_fallback_summary`, which is a total
function of local data, so the `SUMMARIZATION_ERROR` branch (taken only
when the fallback itself raises) is unreachable. -/
def generate_summary_with_recovery (genOutcome : Except Unit NewsSummary)
    (articles : List NewsArticle) (now : Int) : NewsSummary :=
  match genOutcome with
  | .ok s => s
  | .error _ => generate_fallback_summary articles now

/-- The observable outcome of `LambdaHandler._handle_workflow_error`. -/
structure ErrorHandlingResult where
  result : Except Unit Response
  finalState : WorkflowState
  noNewsCalls : Nat
  noNewsSucceeded : Bool
deriving Repr

/-- `LambdaHandler._handle_workflow_error` (lines 603-657): append the
error entry; for a non-recoverable `NEWS_FETCH_ERROR`, run the no-news
recovery (which never raises) and return the partial-success response;
if building that response raises (`TypeError` from `json.dumps`), the
`except Exception: pass` falls through to the error response.  All other
errors go straight to the error response. -/
def handle_workflow_error (noNewsAtt : Nat → PubOutcome)
    (error : WorkflowError) (ws : WorkflowState) : ErrorHandlingResult :=
  let ws1 := { ws with errors := ws.errors ++
    [{ type := error.errorType, message := error.message,
       recoverable := error.recoverable }] }
  if error.errorType = ErrorType.newsFetchError ∧ error.recoverable = false then
    let recovery := handle_no_news_scenario_with_recovery noNewsAtt
    match create_partial_success_response
        "News fetching failed, sent no-news notification" ws1 with
    | .ok r =>
      { result := .ok r, finalState := ws1, noNewsCalls := recovery.2,
        noNewsSucceeded := recovery.1 }
    | .error _ =>
      { result := create_error_response error.message error.errorType ws1,
        finalState := ws1, noNewsCalls := recovery.2,
        noNewsSucceeded := recovery.1 }
  else
    { result := create_error_response error.message error.errorType ws1,
      finalState := ws1, noNewsCalls := 0, noNewsSucceeded := false }

/-- `LambdaHandler._handle_unexpected_error` (lines 659-697): append an
`UNKNOWN_ERROR` entry and build the error response; if `json.dumps` raises
there, the exception propagates to the caller. -/
def handle_unexpected_error (message : String) (ws : WorkflowState) :
    Except Unit Response × WorkflowState :=
  let ws1 := { ws with errors := ws.errors ++
    [{ type := ErrorType.unknownError, message := message,
       recoverable := false }] }
  (create_error_response ("Unexpected error: " ++ message)
    ErrorType.unknownError ws1, ws1)

/-- The handler's collaborator oracles for one invocation. -/
structure Collaborators where
  fetchAtt : Nat → HandlerFetchAttempt
  generateSummaryOutcome : Except Unit NewsSummary
  publishPrimary : PubOutcome
  publishFallback1 : PubOutcome
  publishFallback2 : PubOutcome
  noNewsAtt : Nat → PubOutcome

/-- Observable outcome of one `LambdaHandler.handler` invocation: the
returned response (or `Except.error ()` when an exception propagates to the
caller), the trace of workflow-state snapshots (one per mutation in the
source), and collaborator call counts. -/
structure RunResult where
  result : Except Unit Response
  trace : List WorkflowState
  fetchCalls : Nat
  noNewsCalls : Nat

/-- `LambdaHandler.handler` (lines 116-205): fetch (with recovery), branch
to the no-news path on an empty article list, summarize (with fallback),
publish (with fallback publishing), and build the terminal response;
`WorkflowError` goes to `_handle_workflow_error`, any other exception —
including `TypeError` raised by `json.dumps` inside the response builders —
to `_handle_unexpected_error`. -/
def run_handler (c : Collaborators) (maxArticles : Nat) (now : Int) :
    RunResult :=
  let ws0 := ws_initial
  let fr := fetch_news_articles_with_recovery c.fetchAtt maxArticles
  match fr.1 with
  | .error we =>
    let eh := handle_workflow_error c.noNewsAtt we ws0
    { result := eh.result, trace := [ws0, eh.finalState],
      fetchCalls := fr.2, noNewsCalls := eh.noNewsCalls }
  | .ok articles =>
    let ws1 := { ws0 with articles := articles }
    let ws2 := { ws1 with articlesFetched := true }
    if articles.isEmpty then
      let nn := handle_no_news_scenario_with_recovery c.noNewsAtt
      match create_success_response
          "No relevant news found - notification sent" ws2 with
      | .ok r =>
        { result := .ok r, trace := [ws0, ws1, ws2],
          fetchCalls := fr.2, noNewsCalls := nn.2 }
      | .error _ =>
        let ue := handle_unexpected_error "TypeError from json.dumps" ws2
        { result := ue.1, trace := [ws0, ws1, ws2, ue.2],
          fetchCalls := fr.2, noNewsCalls := nn.2 }
    else
      let s := generate_summary_with_recovery c.generateSummaryOutcome
        articles now
      let ws3 := { ws2 with summary := some s }
      let ws4 := { ws3 with summaryGenerated := true }
      let publish_success := publish_summary_with_recovery c.publishPrimary
      let ws5 := { ws4 with summaryPublished := publish_success }
      if publish_success then
        match create_success_response
            "AI News Agent executed successfully" ws5 with
        | .ok r =>
          { result := .ok r, trace := [ws0, ws1, ws2, ws3, ws4, ws5],
            fetchCalls := fr.2, noNewsCalls := 0 }
        | .error _ =>
          let ue := handle_unexpected_error "TypeError from json.dumps" ws5
          { result := ue.1, trace := [ws0, ws1, ws2, ws3, ws4, ws5, ue.2],
            fetchCalls := fr.2, noNewsCalls := 0 }
      else
        let fallback_success := attempt_fallback_publishing
          c.publishFallback1 c.publishFallback2 s
        let ws6 := { ws5 with summaryPublished := fallback_success }
        if fallback_success then
          match create_success_response
              "AI News Agent executed successfully" ws6 with
          | .ok r =>
            { result := .ok r, trace := [ws0, ws1, ws2, ws3, ws4, ws5, ws6],
              fetchCalls := fr.2, noNewsCalls := 0 }
          | .error _ =>
            let ue := handle_unexpected_error "TypeError from json.dumps" ws6
            { result := ue.1,
              trace := [ws0, ws1, ws2, ws3, ws4, ws5, ws6, ue.2],
              fetchCalls := fr.2, noNewsCalls := 0 }
        else
          match create_partial_success_response
              "Summary generated but publishing failed" ws6 with
          | .ok r =>
            { result := .ok r, trace := [ws0, ws1, ws2, ws3, ws4, ws5, ws6],
              fetchCalls := fr.2, noNewsCalls := 0 }
          | .error _ =>
            let ue := handle_unexpected_error "TypeError from json.dumps" ws6
            { result := ue.1,
              trace := [ws0, ws1, ws2, ws3, ws4, ws5, ws6, ue.2],
              fetchCalls := fr.2, noNewsCalls := 0 }

/-! ## Concrete instances used by witnesses and counterexamples -/

/-- A concrete fetched article (mirrors the repository's test fixtures). -/
def sampleArticle : NewsArticle :=
  { title := "OpenAI Releases GPT Model"
    content := "The new model improves reasoning."
    url := "https://example.com/openai-gpt"
    publishedAt := 0
    source := "TechCrunch"
    id := some "a1"
    relevanceScore := none }

/-- A concrete generated summary. -/
def sampleSummary : NewsSummary :=
  { summary := "Major developments in generative AI."
    keyPoints := ["GPT model released"]
    sources := [⟨"OpenAI Releases GPT Model", "https://example.com/openai-gpt",
      "TechCrunch", 0⟩]
    generatedAt := 0
    articleCount := 1
    id := some "s1" }

/-- An invocation in which fetch succeeds with one relevant article and the
summarizer and publisher all succeed: the fully successful workflow. -/
def successCollaborators : Collaborators :=
  { fetchAtt := fun _ => .fetchReturns [sampleArticle] (.ok [sampleArticle])
    generateSummaryOutcome := .ok sampleSummary
    publishPrimary := .returnsTrue
    publishFallback1 := .returnsTrue
    publishFallback2 := .returnsTrue
    noNewsAtt := fun _ => .returnsTrue }

/-- An invocation in which fetch succeeds with one article, the summary is
generated, and the primary publish and both fallback publishes all fail. -/
def allPublishFailCollaborators : Collaborators :=
  { fetchAtt := fun _ => .fetchReturns [sampleArticle] (.ok [sampleArticle])
    generateSummaryOutcome := .ok sampleSummary
    publishPrimary := .returnsFalse
    publishFallback1 := .returnsFalse
    publishFallback2 := .returnsFalse
    noNewsAtt := fun _ => .returnsTrue }

/-- An invocation in which `fetch_news` raises on the first attempt and
returns an empty list on the second. -/
def raiseThenEmptyCollaborators : Collaborators :=
  { fetchAtt := fun n => if n = 0 then .fetchRaises
      else .fetchReturns [] (.ok [])
    generateSummaryOutcome := .ok sampleSummary
    publishPrimary := .returnsTrue
    publishFallback1 := .returnsTrue
    publishFallback2 := .returnsTrue
    noNewsAtt := fun _ => .returnsTrue }

/-- The `WorkflowError` raised when all three fetch attempts fail. -/
def fetchExhaustedError : WorkflowError :=
  { message := "News fetching failed after 3 attempts"
    errorType := .newsFetchError
    recoverable := false }

/-- A concrete article for relevance-scoring evaluation. -/
def sampleScoredArticle : NewsArticle :=
  { title := "AI wins"
    content := "chess news"
    url := "https://example.com/ai-wins"
    publishedAt := 0
    source := "Example"
    id := some "a2"
    relevanceScore := none }

/-- A summary whose narrative is exactly 1001 characters long. -/
def longNarrativeSummary : NewsSummary :=
  { summary := ⟨List.replicate 1001 'a'⟩
    keyPoints := []
    sources := []
    generatedAt := 0
    articleCount := 0
    id := some "s2" }

/-! ## Proof-side reformulations

`dedupe_from` restates `remove_duplicates_loop` with the `seen_urls`
accumulator eliminated: an exact URL match already makes `is_duplicate`
true, so the URL check is absorbed into the duplicate check once
`seen_urls` is exactly the URLs of the accepted articles (proved in
`remove_duplicates_loop_eq`). -/

/-- `remove_duplicates_loop` with the redundant URL accumulator removed. -/
def dedupe_from : List NewsArticle → List NewsArticle → List NewsArticle
  | [], unique_articles => unique_articles
  | a :: rest, unique_articles =>
    if unique_articles.any (fun existing => is_duplicate a existing) then
      dedupe_from rest unique_articles
    else dedupe_from rest (unique_articles ++ [a])

/-- A list is dedup-clean when no element is a duplicate of an earlier
one. -/
def DedupClean (l : List NewsArticle) : Prop :=
  l.Pairwise (fun earlier later => is_duplicate later earlier = false)

/-- The monotonicity/append-only order on workflow states claimed by the
specification: completion flags never go from true to false, and the error
log only grows at the end. -/
def wsLe (w1 w2 : WorkflowState) : Prop :=
  (w1.articlesFetched = true → w2.articlesFetched = true) ∧
  (w1.summaryGenerated = true → w2.summaryGenerated = true) ∧
  (w1.summaryPublished = true → w2.summaryPublished = true) ∧
  ∃ t, w2.errors = w1.errors ++ t

/-! ## Theorems -/

/-- **C1.** The claim states that the handler always returns a structured
response with `statusCode` in {200, 206, 500} and never propagates an
exception — including on paths where the body must serialize the workflow
state to JSON.  The code violates this: on the fully successful path the
response body embeds `workflow_state` whose `articles` list holds
`NewsArticle` dataclass instances, so `json.dumps` raises `TypeError`
inside `_create_success_response`; the top-level `except` routes the
exception to `_handle_unexpected_error`, whose `_create_error_response`
serializes the same state and raises again, and that exception propagates
to the caller.  This theorem evaluates the handler at such an input and
shows the invocation ends with a propagated exception, not a response. -/
theorem c1_success_path_serialization_crash :
    (run_handler successCollaborators 50 0).result = .error () := by
  rfl

/-- **C3.** The claim states that when the primary publish and both
fallback publishes fail, the handler terminates with a 206 partial-success
response with `summary_published = false`, never a 500.  The code reaches
`_create_partial_success_response` with `summary_published = false` as
claimed, but `json.dumps` of the embedded workflow state (which holds the
`NewsArticle` and `NewsSummary` objects) raises `TypeError` there, and the
rethrow inside `_handle_unexpected_error` propagates: the invocation ends
with an exception instead of the 206 response.  This theorem evaluates the
handler at such an input. -/
theorem c3_publish_all_fail_crash :
    (run_handler allPublishFailCollaborators 50 0).result = .error () ∧
    ((run_handler allPublishFailCollaborators 50 0).trace.map
      (fun w => (w.summaryGenerated, w.summaryPublished))).getLast? =
      some (true, false) := by
  exact ⟨rfl, rfl⟩

/-- **C2.** Empty search results are a valid outcome, not an error: if the
news source's `fetch_news` returns an empty list on an attempt, the
orchestrator's fetch stage returns `[]` at once (one call, no retry); and
in the scenario where `fetch_news` raises on the first attempt and returns
an empty list on the second, the invocation takes the no-news path with
statusCode 200 and `fetch_news` is called exactly 2 times. -/
theorem c2_empty_search_no_news (c : Collaborators) (maxArticles : Nat)
    (now : Int) (fr1 : Except Unit (List NewsArticle))
    (h0 : c.fetchAtt 0 = HandlerFetchAttempt.fetchRaises)
    (h1 : c.fetchAtt 1 = HandlerFetchAttempt.fetchReturns [] fr1)
    (att : Nat → HandlerFetchAttempt) (i fuel : Nat)
    (fr2 : Except Unit (List NewsArticle))
    (h2 : att i = HandlerFetchAttempt.fetchReturns [] fr2) :
    (∃ r, (run_handler c maxArticles now).result = .ok r ∧
      r.statusCode = 200 ∧
      r.message = "No relevant news found - notification sent" ∧
      r.workflowState = some { ws_initial with articlesFetched := true }) ∧
    (run_handler c maxArticles now).fetchCalls = 2 ∧
    fetch_recovery_loop att maxArticles i (fuel + 1) = (.ok [], 1) := by
  have hloop : fetch_news_articles_with_recovery c.fetchAtt maxArticles =
      (.ok [], 2) := by
    show fetch_recovery_loop c.fetchAtt maxArticles 0 3 = (.ok [], 2)
    show fetch_recovery_loop c.fetchAtt maxArticles 0 (2 + 1) = (.ok [], 2)
    rw [fetch_recovery_loop, h0]
    show (let r := fetch_recovery_loop c.fetchAtt maxArticles 1 2; (r.1, r.2 + 1))
      = (.ok [], 2)
    show (let r := fetch_recovery_loop c.fetchAtt maxArticles 1 (1 + 1);
      (r.1, r.2 + 1)) = (.ok [], 2)
    rw [fetch_recovery_loop, h1]
    rfl
  have hrun : (run_handler c maxArticles now).result = .ok
      (Response.mk 200 "No relevant news found - notification sent"
        (some { ws_initial with articlesFetched := true }) none) := by
    unfold run_handler
    rw [hloop]
    rfl
  have hcalls : (run_handler c maxArticles now).fetchCalls = 2 := by
    unfold run_handler
    rw [hloop]
    rfl
  refine ⟨⟨_, hrun, rfl, rfl, rfl⟩, hcalls, ?_⟩
  rw [fetch_recovery_loop, h2]
  rfl

/-- Witness for C2 at a concrete invocation: `fetch_news` raises on attempt
0 and returns `[]` on attempt 1. -/
theorem c2_empty_search_no_news_witness :
    raiseThenEmptyCollaborators.fetchAtt 0 = HandlerFetchAttempt.fetchRaises ∧
    raiseThenEmptyCollaborators.fetchAtt 1 =
      HandlerFetchAttempt.fetchReturns [] (.ok []) ∧
    ((∃ r, (run_handler raiseThenEmptyCollaborators 50 0).result = .ok r ∧
        r.statusCode = 200 ∧
        r.message = "No relevant news found - notification sent" ∧
        r.workflowState = some { ws_initial with articlesFetched := true }) ∧
      (run_handler raiseThenEmptyCollaborators 50 0).fetchCalls = 2 ∧
      fetch_recovery_loop raiseThenEmptyCollaborators.fetchAtt 50 1 (0 + 1) =
        (.ok [], 1)) :=
  ⟨rfl, rfl, c2_empty_search_no_news raiseThenEmptyCollaborators 50 0 (.ok [])
    rfl rfl raiseThenEmptyCollaborators.fetchAtt 1 0 (.ok []) rfl⟩

/-- The no-news notification loop makes at least one call when given a
positive attempt budget. -/
theorem send_no_news_loop_calls_pos (att : Nat → PubOutcome) (i n : Nat) :
    1 ≤ (send_no_news_loop att i (n + 1)).2 := by
  rw [send_no_news_loop]
  cases att i <;> simp

/-- **C4 (counterexample).** The claim says the orchestrator returns a
partial-success response *if the no-news recovery succeeds, else an error
response*.  Here every `send_no_news_notification` call returns `False`,
so the recovery does not succeed — yet the handler still returns the 206
partial-success response, not an error response: notification failure is
only logged inside `_handle_no_news_scenario_with_recovery`, which never
raises, and `_handle_workflow_error` returns the partial-success response
unconditionally after it. -/
theorem c4_failed_recovery_still_partial_success :
    (handle_workflow_error (fun _ => PubOutcome.returnsFalse)
      fetchExhaustedError ws_initial).noNewsSucceeded = false ∧
    Except.map Response.statusCode
      (handle_workflow_error (fun _ => PubOutcome.returnsFalse)
        fetchExhaustedError ws_initial).result = .ok 206 := by
  exact ⟨rfl, rfl⟩

/-- **C4 (amended).** On an irrecoverable fetch failure
(`NEWS_FETCH_ERROR` after retries are exhausted), the orchestrator attempts
the no-news notification as a recovery path (at least one
`send_no_news_notification` call is made) and returns a partial-success
response regardless of whether that recovery succeeds: the recovery routine
catches every exception, so the error-response branch behind it is never
taken.  (Stated for any workflow state from the fetch-failure path, i.e.
one whose body is still JSON-serializable.) -/
theorem c4_fetch_error_partial_success (noNewsAtt : Nat → PubOutcome)
    (error : WorkflowError) (ws : WorkflowState)
    (hT : error.errorType = ErrorType.newsFetchError)
    (hR : error.recoverable = false)
    (hS : workflow_state_serializable ws = true) :
    (∃ r, (handle_workflow_error noNewsAtt error ws).result = .ok r ∧
      r.statusCode = 206) ∧
    1 ≤ (handle_workflow_error noNewsAtt error ws).noNewsCalls := by
  unfold handle_workflow_error
  rw [if_pos ⟨hT, hR⟩]
  have hS1 : workflow_state_serializable { ws with errors := ws.errors ++
      [{ type := error.errorType, message := error.message,
         recoverable := error.recoverable }] } = true := hS
  unfold create_partial_success_response
  rw [if_pos hS1]
  exact ⟨⟨_, rfl, rfl⟩, send_no_news_loop_calls_pos noNewsAtt 0 1⟩

/-- Witness for C4 at a concrete input: the exhausted-retries fetch error,
the initial workflow state, and a notifier that succeeds at once. -/
theorem c4_fetch_error_partial_success_witness :
    fetchExhaustedError.errorType = ErrorType.newsFetchError ∧
    fetchExhaustedError.recoverable = false ∧
    workflow_state_serializable ws_initial = true ∧
    ((∃ r, (handle_workflow_error (fun _ => PubOutcome.returnsTrue)
        fetchExhaustedError ws_initial).result = .ok r ∧
      r.statusCode = 206) ∧
    1 ≤ (handle_workflow_error (fun _ => PubOutcome.returnsTrue)
      fetchExhaustedError ws_initial).noNewsCalls) :=
  ⟨rfl, rfl, rfl, c4_fetch_error_partial_success
    (fun _ => PubOutcome.returnsTrue) fetchExhaustedError ws_initial
    rfl rfl rfl⟩

/-- Length of a concatenation of Python strings. -/
theorem pyLen_append (a b : String) : pyLen (a ++ b) = pyLen a + pyLen b := by
  cases a
  cases b
  simp [pyLen, String.append]

/-- Length of a Python string slice `s[:n]`. -/
theorem pyLen_pyTake (s : String) (n : Nat) :
    pyLen (pyTake s n) = min n (pyLen s) := by
  simp [pyLen, pyTake]

/-- **C5 (counterexample).** The claim says the simplified summary never
has a longer narrative than the input.  For a narrative of exactly 1001
characters the truncation branch fires (`1001 > 1000`) and produces 1000
characters plus a 3-character ellipsis: 1003 > 1001. -/
theorem c5_simplify_lengthens_1001 :
    ¬ (pyLen (create_simplified_summary longNarrativeSummary).summary ≤
        pyLen longNarrativeSummary.summary) := by
  have h1 : pyLen longNarrativeSummary.summary = 1001 := by
    show (List.replicate 1001 'a').length = 1001
    exact List.length_replicate 1001 'a'
  have h2 : pyLen (create_simplified_summary longNarrativeSummary).summary
      = 1003 := by
    unfold create_simplified_summary
    rw [h1]
    norm_num
    rw [pyLen_append, pyLen_pyTake, h1]
    rfl
  omega

/-- **C5 (amended).** The simplified variant never has more key points or
more sources than the input, and its narrative is never longer than the
input's — except when the input narrative has exactly 1001 or 1002
characters, in which case the output narrative has exactly 1003 characters
(1000 kept plus the 3-character ellipsis marker). -/
theorem c5_simplify_bounds (s : NewsSummary) :
    (create_simplified_summary s).keyPoints.length ≤ s.keyPoints.length ∧
    (create_simplified_summary s).sources.length ≤ s.sources.length ∧
    (pyLen s.summary ≤ 1000 ∨ 1003 ≤ pyLen s.summary →
      pyLen (create_simplified_summary s).summary ≤ pyLen s.summary) ∧
    (pyLen s.summary = 1001 ∨ pyLen s.summary = 1002 →
      pyLen (create_simplified_summary s).summary = 1003) := by
  unfold create_simplified_summary
  refine ⟨?_, ?_, ?_, ?_⟩
  · simp only [List.length_take]
    exact min_le_right _ _
  · simp only [List.length_take]
    exact min_le_right _ _
  · intro h
    by_cases hc : pyLen s.summary > 1000
    · rw [if_pos hc]
      rw [pyLen_append, pyLen_pyTake]
      have h3 : pyLen ("..." : String) = 3 := rfl
      rw [h3]
      rcases h with h | h <;> omega
    · rw [if_neg hc]
  · intro h
    have hc : pyLen s.summary > 1000 := by rcases h with h | h <;> omega
    rw [if_pos hc, pyLen_append, pyLen_pyTake]
    have h3 : pyLen ("..." : String) = 3 := rfl
    rw [h3]
    rcases h with h | h <;> omega

/-- Witness for C5 at a concrete input: the sample summary, whose
36-character narrative is on the no-truncation side. -/
theorem c5_simplify_bounds_witness :
    ((create_simplified_summary sampleSummary).keyPoints.length ≤
      sampleSummary.keyPoints.length ∧
    (create_simplified_summary sampleSummary).sources.length ≤
      sampleSummary.sources.length ∧
    (pyLen sampleSummary.summary ≤ 1000 ∨ 1003 ≤ pyLen sampleSummary.summary →
      pyLen (create_simplified_summary sampleSummary).summary ≤
        pyLen sampleSummary.summary) ∧
    (pyLen sampleSummary.summary = 1001 ∨ pyLen sampleSummary.summary = 1002 →
      pyLen (create_simplified_summary sampleSummary).summary = 1003)) ∧
    pyLen (create_simplified_summary sampleSummary).summary ≤
      pyLen sampleSummary.summary :=
  ⟨c5_simplify_bounds sampleSummary,
   (c5_simplify_bounds sampleSummary).2.2.1 (Or.inl (by decide))⟩

/-- **C6.** For every article and non-empty keyword vocabulary,
`calculate_relevance_score` returns
`min(matches/|V| + (titleMatches/|V|)·0.3, 1.0)`, where `matches` counts
vocabulary terms occurring case-insensitively anywhere in title+body and
`titleMatches` counts terms occurring in the title; the result lies in
[0, 1]; and a repeated call with the same keyword set (on the article
updated with the cached score) yields the same value. -/
theorem c6_relevance_score_formula (a : NewsArticle) (keywords : List String)
    (h : keywords ≠ []) :
    (a.calculate_relevance_score (some keywords)).1 =
      min ((count_matching_terms keywords (a.title ++ " " ++ a.content) : ℚ) /
          keywords.length +
        ((count_matching_terms keywords a.title : ℚ) / keywords.length) *
          (3/10)) 1 ∧
    0 ≤ (a.calculate_relevance_score (some keywords)).1 ∧
    (a.calculate_relevance_score (some keywords)).1 ≤ 1 ∧
    ((a.calculate_relevance_score (some keywords)).2.calculate_relevance_score
      (some keywords)).1 = (a.calculate_relevance_score (some keywords)).1 := by
  have hpos : 0 < keywords.length := List.length_pos.mpr h
  have hscore : (a.calculate_relevance_score (some keywords)).1 =
      min ((count_matching_terms keywords (a.title ++ " " ++ a.content) : ℚ) /
          keywords.length +
        ((count_matching_terms keywords a.title : ℚ) / keywords.length) *
          (3/10)) 1 := by
    unfold NewsArticle.calculate_relevance_score count_matching_terms
    dsimp only [Option.getD]
    rw [if_pos hpos, if_pos hpos]
  refine ⟨hscore, ?_, ?_, ?_⟩
  · rw [hscore]
    refine le_min (add_nonneg ?_ ?_) zero_le_one
    · exact div_nonneg (Nat.cast_nonneg _) (Nat.cast_nonneg _)
    · exact mul_nonneg (div_nonneg (Nat.cast_nonneg _) (Nat.cast_nonneg _))
        (by norm_num)
  · rw [hscore]
    exact min_le_right _ _
  · rfl

/-- Witness for C6 at a concrete input: vocabulary `["ai"]`, title
`"AI wins"`, body `"chess news"`; the score is `min(1 + 0.3, 1) = 1`. -/
theorem c6_relevance_score_formula_witness :
    (["ai"] : List String) ≠ [] ∧
    ((sampleScoredArticle.calculate_relevance_score (some ["ai"])).1 =
      min ((count_matching_terms ["ai"]
          (sampleScoredArticle.title ++ " " ++ sampleScoredArticle.content) : ℚ) /
          (["ai"] : List String).length +
        ((count_matching_terms ["ai"] sampleScoredArticle.title : ℚ) /
          (["ai"] : List String).length) * (3/10)) 1 ∧
    0 ≤ (sampleScoredArticle.calculate_relevance_score (some ["ai"])).1 ∧
    (sampleScoredArticle.calculate_relevance_score (some ["ai"])).1 ≤ 1 ∧
    ((sampleScoredArticle.calculate_relevance_score
        (some ["ai"])).2.calculate_relevance_score (some ["ai"])).1 =
      (sampleScoredArticle.calculate_relevance_score (some ["ai"])).1) :=
  ⟨by decide, c6_relevance_score_formula sampleScoredArticle ["ai"] (by decide)⟩

/-- **C10.** For every non-empty article list, provided the agent is
initialized, `StrandsAISummarizer.generate_summary` returns a `NewsSummary`
and does not raise: every exception of the primary summarization is caught
and answered with `_fallback_summary_generation`, key-point extraction
catches its own failures, and the fallback manipulates only local data, so
the orchestrator's `SUMMARIZATION_ERROR` path could only be reached if the
fallback itself raised. -/
theorem c10_generate_summary_total (agentInitialized : Bool)
    (ag : AgentOracle) (articles : List NewsArticle) (now : Int)
    (hA : articles ≠ []) (hI : agentInitialized = true) :
    ∃ s, generate_summary agentInitialized ag articles now = .ok s := by
  subst hI
  have hE : articles.isEmpty = false := by
    cases articles
    · exact absurd rfl hA
    · rfl
  cases hst : ag.summaryTextResult with
  | error e =>
    refine ⟨fallback_summary_generation articles now, ?_⟩
    simp [generate_summary, hE, hst]
  | ok content =>
    cases hkp : ag.keyPointsResult with
    | error e2 =>
      refine ⟨{ summary := pyStrip content
                keyPoints := generate_fallback_key_points articles
                sources := create_article_sources articles
                generatedAt := now
                articleCount := articles.length
                id := none }, ?_⟩
      simp [generate_summary, extract_key_points, hE, hst, hkp]
    | ok resp =>
      refine ⟨{ summary := pyStrip content
                keyPoints := parse_key_points_response resp
                sources := create_article_sources articles
                generatedAt := now
                articleCount := articles.length
                id := none }, ?_⟩
      simp [generate_summary, extract_key_points, hE, hst, hkp]

/-- Witness for C10 at a concrete input: one article, both agent calls
raising (`_execute_with_retry` exhausted), so the built-in fallback summary
is returned. -/
theorem c10_generate_summary_total_witness :
    ([sampleArticle] : List NewsArticle) ≠ [] ∧ (true : Bool) = true ∧
    ∃ s, generate_summary true ⟨.error (), .error ()⟩ [sampleArticle] 0 =
      .ok s :=
  ⟨by decide, rfl, c10_generate_summary_total true ⟨.error (), .error ()⟩
    [sampleArticle] 0 (by decide) rfl⟩

/-- **C8 (counterexample).** The claim says an item is discarded as a
URL-duplicate only when the same URL appeared earlier in the *same* fetch
call, and that URLs seen by earlier fetch calls on the same instance do not
cause discards later.  `self._processed_urls` is instance state created in
`__init__` and never cleared: here the first `fetch_news` call accepts the
article, and a second call on the same instance discards the identical item
even though its URL never appeared earlier within that second call. -/
theorem c8_cross_call_discard :
    (fetch_news (fun _ => SearchOutcome.returns [sampleArticle]) some (-1)
      ⟨[]⟩).1 = .ok [sampleArticle] ∧
    (fetch_news (fun _ => SearchOutcome.returns [sampleArticle]) some (-1)
      (fetch_news (fun _ => SearchOutcome.returns [sampleArticle]) some (-1)
        ⟨[]⟩).2).1 = .ok [] := by
  exact ⟨rfl, rfl⟩

/-- **C8 (amended).** Within one conversion pass, an item that survives
parsing and the time filter is discarded as a URL-duplicate iff its URL is
in the instance-level `_processed_urls` set — which holds the URLs seen in
*this or any earlier* fetch call on the same fetcher instance: every kept
article's URL was absent from the incoming set, kept URLs are pairwise
distinct within the call, and the outgoing set is the incoming set plus the
kept URLs. -/
theorem c8_url_dedup_characterization (create : Raw → Option NewsArticle)
    (cutoff : Int) (raws : List Raw) (st : FetcherState) :
    (∀ a ∈ (convert_to_news_articles create cutoff raws st).1,
      a.url ∉ st.processedUrls) ∧
    ((convert_to_news_articles create cutoff raws st).1.map
      (fun a => a.url)).Nodup ∧
    (convert_to_news_articles create cutoff raws st).2.processedUrls =
      st.processedUrls ++
        (convert_to_news_articles create cutoff raws st).1.map
          (fun a => a.url) := by
  induction raws generalizing st with
  | nil =>
    refine ⟨fun a ha => absurd ha (List.not_mem_nil a), List.nodup_nil, ?_⟩
    simp [convert_to_news_articles]
  | cons r rest ih =>
    cases hc : create r with
    | none =>
      simp only [convert_to_news_articles, hc]
      exact ih st
    | some article =>
      by_cases ht : article.publishedAt ≤ cutoff
      · simp only [convert_to_news_articles, hc, if_pos ht]
        exact ih st
      · by_cases hu : article.url ∈ st.processedUrls
        · simp only [convert_to_news_articles, hc, if_neg ht, if_pos hu]
          exact ih st
        · obtain ⟨ih1, ih2, ih3⟩ := ih (⟨st.processedUrls ++ [article.url]⟩ :
            FetcherState)
          simp only [convert_to_news_articles, hc, if_neg ht, if_neg hu]
          refine ⟨?_, ?_, ?_⟩
          · intro a ha
            rcases List.mem_cons.mp ha with rfl | hmem
            · exact hu
            · intro hbad
              exact ih1 a hmem (List.mem_append_left _ hbad)
          · rw [List.map_cons, List.nodup_cons]
            refine ⟨?_, ih2⟩
            intro hbad
            obtain ⟨b, hb, hburl⟩ := List.mem_map.mp hbad
            exact ih1 b hb (by
              rw [hburl]
              exact List.mem_append_right _ (List.mem_singleton_self _))
          · rw [ih3]
            simp

/-- An exact URL match makes `is_duplicate` true (its first check). -/
theorem is_duplicate_of_url_eq {a b : NewsArticle} (h : a.url = b.url) :
    is_duplicate a b = true := by
  unfold is_duplicate
  rw [if_pos h]

/-- Once `seen_urls` is exactly the URLs of the accepted articles, the URL
check of `remove_duplicates_loop` is subsumed by the `is_duplicate` check,
and the loop coincides with `dedupe_from`. -/
theorem remove_duplicates_loop_eq (rest : List NewsArticle) :
    ∀ unique_articles, remove_duplicates_loop rest unique_articles
      (unique_articles.map (fun a => a.url)) =
      dedupe_from rest unique_articles := by
  induction rest with
  | nil => intro u; rfl
  | cons a tl ih =>
    intro u
    by_cases hmem : a.url ∈ u.map (fun x => x.url)
    · have hany : u.any (fun existing => is_duplicate a existing) = true := by
        obtain ⟨b, hb, hurl⟩ := List.mem_map.mp hmem
        exact List.any_eq_true.mpr ⟨b, hb, is_duplicate_of_url_eq hurl.symm⟩
      rw [remove_duplicates_loop, dedupe_from, if_pos hmem, if_pos hany]
      exact ih u
    · by_cases hany : u.any (fun existing => is_duplicate a existing) = true
      · rw [remove_duplicates_loop, dedupe_from, if_neg hmem, if_pos hany,
          if_pos hany]
        exact ih u
      · rw [remove_duplicates_loop, dedupe_from, if_neg hmem, if_neg hany,
          if_neg hany]
        have hseen : u.map (fun x => x.url) ++ [a.url] =
            (u ++ [a]).map (fun x => x.url) := by simp
        rw [hseen]
        exact ih (u ++ [a])

/-- `dedupe_from` extends its accumulator with a sublist of the input. -/
theorem dedupe_from_shape (rest : List NewsArticle) :
    ∀ unique_articles, ∃ t, dedupe_from rest unique_articles =
      unique_articles ++ t ∧ t.Sublist rest := by
  induction rest with
  | nil =>
    intro u
    exact ⟨[], (List.append_nil u).symm, List.Sublist.refl []⟩
  | cons a tl ih =>
    intro u
    by_cases h : u.any (fun existing => is_duplicate a existing) = true
    · obtain ⟨t, ht, hs⟩ := ih u
      refine ⟨t, ?_, hs.cons a⟩
      rw [dedupe_from, if_pos h]
      exact ht
    · obtain ⟨t, ht, hs⟩ := ih (u ++ [a])
      refine ⟨a :: t, ?_, hs.cons₂ a⟩
      rw [dedupe_from, if_neg h, ht]
      simp

/-- Accumulator members survive `dedupe_from`. -/
theorem mem_dedupe_from_of_mem (rest unique_articles : List NewsArticle)
    {x : NewsArticle} (hx : x ∈ unique_articles) :
    x ∈ dedupe_from rest unique_articles := by
  obtain ⟨t, ht, _⟩ := dedupe_from_shape rest unique_articles
  rw [ht]
  exact List.mem_append_left t hx

/-- `dedupe_from` preserves dedup-cleanliness of the accumulator. -/
theorem dedupe_from_clean (rest : List NewsArticle) :
    ∀ unique_articles, DedupClean unique_articles →
      DedupClean (dedupe_from rest unique_articles) := by
  induction rest with
  | nil => intro u hu; exact hu
  | cons a tl ih =>
    intro u hu
    by_cases h : u.any (fun existing => is_duplicate a existing) = true
    · rw [dedupe_from, if_pos h]
      exact ih u hu
    · rw [dedupe_from, if_neg h]
      refine ih (u ++ [a]) ?_
      have hall : ∀ b ∈ u, is_duplicate a b = false := by
        intro b hb
        by_contra hcon
        exact h (List.any_eq_true.mpr ⟨b, hb,
          eq_true_of_ne_false hcon⟩)
      unfold DedupClean
      rw [List.pairwise_append]
      refine ⟨hu, List.pairwise_singleton _ _, ?_⟩
      intro b hb x hx
      rw [List.mem_singleton] at hx
      subst hx
      exact hall b hb

/-- A dedup-clean list is a fixed point of `dedupe_from`. -/
theorem dedupe_from_fixed (M : List NewsArticle) :
    ∀ unique_articles, DedupClean (unique_articles ++ M) →
      dedupe_from M unique_articles = unique_articles ++ M := by
  induction M with
  | nil => intro u _; simp [dedupe_from]
  | cons a tl ih =>
    intro u hu
    have hall : ∀ b ∈ u, is_duplicate a b = false := by
      unfold DedupClean at hu
      rw [List.pairwise_append] at hu
      intro b hb
      exact hu.2.2 b hb a (List.mem_cons_self a tl)
    have hany : ¬ u.any (fun existing => is_duplicate a existing) = true := by
      intro hbad
      obtain ⟨b, hb, hdup⟩ := List.any_eq_true.mp hbad
      rw [hall b hb] at hdup
      exact Bool.false_ne_true hdup
    rw [dedupe_from, if_neg hany]
    have hclean : DedupClean ((u ++ [a]) ++ tl) := by
      rw [← List.append_cons]
      exact hu
    rw [ih (u ++ [a]) hclean, ← List.append_cons]

/-- Every input element either survives `dedupe_from` or has a surviving
duplicate. -/
theorem dedupe_from_covers (rest : List NewsArticle) :
    ∀ unique_articles, ∀ x ∈ rest,
      x ∈ dedupe_from rest unique_articles ∨
      ∃ b ∈ dedupe_from rest unique_articles, is_duplicate x b = true := by
  induction rest with
  | nil => intro u x hx; exact absurd hx (List.not_mem_nil x)
  | cons a tl ih =>
    intro u x hx
    by_cases h : u.any (fun existing => is_duplicate a existing) = true
    · rw [dedupe_from, if_pos h]
      rcases List.mem_cons.mp hx with rfl | hmem
      · obtain ⟨b, hb, hdup⟩ := List.any_eq_true.mp h
        exact Or.inr ⟨b, mem_dedupe_from_of_mem tl u hb, hdup⟩
      · exact ih u x hmem
    · rw [dedupe_from, if_neg h]
      rcases List.mem_cons.mp hx with rfl | hmem
      · exact Or.inl (mem_dedupe_from_of_mem tl (u ++ [x])
          (List.mem_append_right u (List.mem_singleton_self x)))
      · exact ih (u ++ [a]) x hmem

/-- **C7.** `_remove_duplicates` is idempotent, never lengthens its input,
returns a sublist of the input (so input order is preserved), and every
dropped article has a duplicate among the kept ones (the first occurrence
of each duplicate group wins). -/
theorem c7_dedupe_properties (L : List NewsArticle) :
    remove_duplicates (remove_duplicates L) = remove_duplicates L ∧
    (remove_duplicates L).length ≤ L.length ∧
    (remove_duplicates L).Sublist L ∧
    ∀ a ∈ L, a ∈ remove_duplicates L ∨
      ∃ b ∈ remove_duplicates L, is_duplicate a b = true := by
  have hbase : ∀ M : List NewsArticle, remove_duplicates M = dedupe_from M [] := by
    intro M
    unfold remove_duplicates
    have h := remove_duplicates_loop_eq M []
    simpa using h
  have hsub : (remove_duplicates L).Sublist L := by
    obtain ⟨t, ht, hs⟩ := dedupe_from_shape L []
    rw [hbase L, ht]
    simpa using hs
  refine ⟨?_, hsub.length_le, hsub, ?_⟩
  · have hclean : DedupClean (dedupe_from L []) :=
      dedupe_from_clean L [] List.Pairwise.nil
    rw [hbase L, hbase (dedupe_from L [])]
    have h := dedupe_from_fixed (dedupe_from L []) [] (by simpa using hclean)
    simpa using h
  · intro a ha
    rw [hbase L]
    exact dedupe_from_covers L [] a ha

/-- Setting `articles` preserves flags and errors. -/
theorem wsLe_set_articles (w : WorkflowState) (l : List NewsArticle) :
    wsLe w { w with articles := l } :=
  ⟨fun h => h, fun h => h, fun h => h, [], (List.append_nil _).symm⟩

/-- Setting `articlesFetched := true` is monotone. -/
theorem wsLe_set_fetched (w : WorkflowState) :
    wsLe w { w with articlesFetched := true } :=
  ⟨fun _ => rfl, fun h => h, fun h => h, [], (List.append_nil _).symm⟩

/-- Setting `summary` preserves flags and errors. -/
theorem wsLe_set_summary (w : WorkflowState) (s : NewsSummary) :
    wsLe w { w with summary := some s } :=
  ⟨fun h => h, fun h => h, fun h => h, [], (List.append_nil _).symm⟩

/-- Setting `summaryGenerated := true` is monotone. -/
theorem wsLe_set_generated (w : WorkflowState) :
    wsLe w { w with summaryGenerated := true } :=
  ⟨fun h => h, fun _ => rfl, fun h => h, [], (List.append_nil _).symm⟩

/-- Overwriting a still-false `summaryPublished` is monotone. -/
theorem wsLe_set_published (w : WorkflowState) (b : Bool)
    (h : w.summaryPublished = false) :
    wsLe w { w with summaryPublished := b } :=
  ⟨fun h => h, fun h => h,
   fun hh => absurd (h ▸ hh) Bool.false_ne_true,
   [], (List.append_nil _).symm⟩

/-- Appending to the error log is monotone. -/
theorem wsLe_append_errors (w : WorkflowState) (l : List ErrorEntry) :
    wsLe w { w with errors := w.errors ++ l } :=
  ⟨fun h => h, fun h => h, fun h => h, l, rfl⟩

/-- `_handle_workflow_error` only appends the error entry to the state. -/
theorem handle_workflow_error_finalState (noNewsAtt : Nat → PubOutcome)
    (error : WorkflowError) (ws : WorkflowState) :
    (handle_workflow_error noNewsAtt error ws).finalState =
      { ws with errors := ws.errors ++
          [ErrorEntry.mk error.errorType error.message error.recoverable] } := by
  unfold handle_workflow_error
  split
  · dsimp only
    split <;> rfl
  · rfl

/-- `_handle_unexpected_error` only appends the error entry to the state. -/
theorem handle_unexpected_error_snd (message : String) (ws : WorkflowState) :
    (handle_unexpected_error message ws).2 =
      { ws with errors := ws.errors ++
          [ErrorEntry.mk ErrorType.unknownError message false] } := rfl

/-- **C9.** Within one invocation, the completion flags of the workflow
state are monotonic (never reset from true to false) and the error log is
append-only, along the whole trace of state snapshots produced by the
handler — for every collaborator behaviour. -/
theorem c9_workflow_state_monotone (c : Collaborators) (maxArticles : Nat)
    (now : Int) : List.Chain' wsLe (run_handler c maxArticles now).trace := by
  unfold run_handler
  dsimp only
  split
  · refine List.chain'_pair.mpr ?_
    rw [handle_workflow_error_finalState]
    exact wsLe_append_errors _ _
  · split
    · split
      · simp only [List.chain'_cons, List.chain'_singleton, and_true]
        exact ⟨wsLe_set_articles _ _, wsLe_set_fetched _⟩
      · simp only [List.chain'_cons, List.chain'_singleton, and_true]
        refine ⟨wsLe_set_articles _ _, wsLe_set_fetched _, ?_⟩
        rw [handle_unexpected_error_snd]
        exact wsLe_append_errors _ _
    · split
      · split
        · simp only [List.chain'_cons, List.chain'_singleton, and_true]
          exact ⟨wsLe_set_articles _ _, wsLe_set_fetched _,
            wsLe_set_summary _ _, wsLe_set_generated _,
            wsLe_set_published _ _ rfl⟩
        · simp only [List.chain'_cons, List.chain'_singleton, and_true]
          refine ⟨wsLe_set_articles _ _, wsLe_set_fetched _,
            wsLe_set_summary _ _, wsLe_set_generated _,
            wsLe_set_published _ _ rfl, ?_⟩
          rw [handle_unexpected_error_snd]
          exact wsLe_append_errors _ _
      · rename_i hpub
        have hpub5 := eq_false_of_ne_true hpub
        split
        · split
          · simp only [List.chain'_cons, List.chain'_singleton, and_true]
            exact ⟨wsLe_set_articles _ _, wsLe_set_fetched _,
              wsLe_set_summary _ _, wsLe_set_generated _,
              wsLe_set_published _ _ rfl, wsLe_set_published _ _ hpub5⟩
          · simp only [List.chain'_cons, List.chain'_singleton, and_true]
            refine ⟨wsLe_set_articles _ _, wsLe_set_fetched _,
              wsLe_set_summary _ _, wsLe_set_generated _,
              wsLe_set_published _ _ rfl, wsLe_set_published _ _ hpub5, ?_⟩
            rw [handle_unexpected_error_snd]
            exact wsLe_append_errors _ _
        · split
          · simp only [List.chain'_cons, List.chain'_singleton, and_true]
            exact ⟨wsLe_set_articles _ _, wsLe_set_fetched _,
              wsLe_set_summary _ _, wsLe_set_generated _,
              wsLe_set_published _ _ rfl, wsLe_set_published _ _ hpub5⟩
          · simp only [List.chain'_cons, List.chain'_singleton, and_true]
            refine ⟨wsLe_set_articles _ _, wsLe_set_fetched _,
              wsLe_set_summary _ _, wsLe_set_generated _,
              wsLe_set_published _ _ rfl, wsLe_set_published _ _ hpub5, ?_⟩
            rw [handle_unexpected_error_snd]
            exact wsLe_append_errors _ _

/-- Witness for C7 at a concrete input: a two-element list with an exact
duplicate, whose first occurrence is kept. -/
theorem c7_dedupe_properties_witness :
    (remove_duplicates (remove_duplicates [sampleArticle, sampleArticle]) =
        remove_duplicates [sampleArticle, sampleArticle] ∧
      (remove_duplicates [sampleArticle, sampleArticle]).length ≤
        ([sampleArticle, sampleArticle] : List NewsArticle).length ∧
      (remove_duplicates [sampleArticle, sampleArticle]).Sublist
        [sampleArticle, sampleArticle] ∧
      ∀ a ∈ ([sampleArticle, sampleArticle] : List NewsArticle),
        a ∈ remove_duplicates [sampleArticle, sampleArticle] ∨
        ∃ b ∈ remove_duplicates [sampleArticle, sampleArticle],
          is_duplicate a b = true) ∧
    (sampleArticle ∈ remove_duplicates [sampleArticle, sampleArticle] ∨
      ∃ b ∈ remove_duplicates [sampleArticle, sampleArticle],
        is_duplicate sampleArticle b = true) :=
  ⟨c7_dedupe_properties [sampleArticle, sampleArticle],
   (c7_dedupe_properties [sampleArticle, sampleArticle]).2.2.2 sampleArticle
     (List.mem_cons_self sampleArticle [sampleArticle])⟩

/-- Witness for C8 at a concrete input: one raw item converted from the
empty processed-URL state. -/
theorem c8_url_dedup_characterization_witness :
    (∀ a ∈ (convert_to_news_articles (fun r => some r) (-1) [sampleArticle]
        (⟨[]⟩ : FetcherState)).1,
      a.url ∉ (⟨[]⟩ : FetcherState).processedUrls) ∧
    ((convert_to_news_articles (fun r => some r) (-1) [sampleArticle]
        (⟨[]⟩ : FetcherState)).1.map (fun a => a.url)).Nodup ∧
    (convert_to_news_articles (fun r => some r) (-1) [sampleArticle]
        (⟨[]⟩ : FetcherState)).2.processedUrls =
      (⟨[]⟩ : FetcherState).processedUrls ++
        (convert_to_news_articles (fun r => some r) (-1) [sampleArticle]
          (⟨[]⟩ : FetcherState)).1.map (fun a => a.url) :=
  c8_url_dedup_characterization (fun r => some r) (-1) [sampleArticle] ⟨[]⟩
